import Mathlib

/-!
# neo4j-go-client: the client core (`pkg/client/client.go`) and the demo mapper

The driver, its sessions and its transactions are external collaborators.  They
are embedded as a record of state-transition functions over an arbitrary backend
state `σ`; every call made by the client is appended, with its reply, to a log
carried next to the backend state.  Go's `(value, error)` results are pairs whose
second component is `none` for a nil error.  The `context.Context` argument is
threaded unchanged through every call of the source and is left out.
-/

namespace Neo4jGo

/-! ## Go values and errors -/

/-- Go error value: either a plain error with a message, or an error built by
`fmt.Errorf` with one `%w` operand, which keeps the operand as its cause. -/
inductive GoError where
  | leaf (msg : String)
  | wrap (msg : String) (cause : GoError)
  deriving DecidableEq, Repr

/-- The `Error()` method: the message of an error. -/
def GoError.Error : GoError → String
  | .leaf m => m
  | .wrap m _ => m

/-- The `Unwrap()` method, as used by `errors.Unwrap`. -/
def GoError.Unwrap : GoError → Option GoError
  | .leaf _ => none
  | .wrap _ c => some c

/-- The text `fmt` prints for an `error` operand under the verb `%v`: the
message of a non-nil error, and `<nil>` for a nil one. -/
def fmtV : Option GoError → String
  | none => "<nil>"
  | some e => e.Error

/-- The call `fmt.Errorf(pre + "%v" + mid + "%w", a, b)` with `b` non-nil: the message
is the format with both operands printed, and the result unwraps to `b`. -/
def Errorf (pre mid : String) (a : Option GoError) (b : GoError) : GoError :=
  .wrap (pre ++ fmtV a ++ mid ++ b.Error) b

/-- The dynamic values a query can yield (the ones the demo distinguishes). -/
inductive Value where
  | int64 (i : Int)
  | float64 (mantissa : Int) (exponent : Int)
  | string (s : String)
  | bool (b : Bool)
  deriving DecidableEq, Repr

/-- Go's `any`: `none` is the nil interface value. -/
abbrev GoAny := Option Value

/-- Query parameters, `map[string]any`. -/
abbrev Parameters := List (String × GoAny)

/-- One row of a result: keys with their values, in column order. -/
structure Record where
  fields : List (String × GoAny)
  deriving DecidableEq, Repr

/-- The driver's `Record.Get(key)`: the value under the key and `true`, or
`nil` and `false` when the key is absent. -/
def Record.Get (record : Record) (key : String) : GoAny × Bool :=
  match record.fields.lookup key with
  | some v => (v, true)
  | none => (none, false)

/-- The rows still to be read from a query result. -/
structure ResultWithContext where
  records : List Record
  deriving DecidableEq, Repr

/-- Modelled from the spec: the driver's `ResultWithContext.Single` is not part of
the repository; it "reads exactly one row from a result stream, fails if zero or
more-than-one rows are present". -/
def ResultWithContext.Single (queryResult : ResultWithContext) : Option Record × Option GoError :=
  match queryResult.records with
  | [] => (none, some (.leaf "Result contains no more records"))
  | [record] => (some record, none)
  | _ :: _ :: _ => (none, some (.leaf "Result contains more than one record"))

/-- How a Go function call ends: it returns, or it panics. -/
inductive Outcome (α : Type) where
  | returns (v : α)
  | panics (msg : String)
  deriving DecidableEq, Repr

/-- The name Go's runtime prints for the dynamic type of an `any` operand. -/
def goTypeName : GoAny → String
  | none => "nil"
  | some (.int64 _) => "int64"
  | some (.float64 _ _) => "float64"
  | some (.string _) => "string"
  | some (.bool _) => "bool"

/-- The panic of a failed type assertion `x.(int64)` on an `any` operand: the
message of the runtime's `TypeAssertionError`, which names the dynamic type. -/
def assertInt64Panic (x : GoAny) : String :=
  "interface conversion: interface {} is " ++ goTypeName x ++ ", not int64"

/-- The demo mapper `fortyTwo` (`cmd/demo/main.go`): `Single`, then `Get("fortyTwo")`
with the found flag discarded, then the unchecked type assertion `result.(int64)`,
which panics on a nil or non-`int64` operand. -/
def fortyTwo (queryResult : ResultWithContext) : Outcome (GoAny × Option GoError) :=
  match queryResult.Single with
  | (_, some err) => .returns (none, some err)
  | (none, none) => .panics "runtime error: invalid memory address or nil pointer dereference"
  | (some record, none) =>
    match (record.Get "fortyTwo").1 with
    | some (.int64 i) => .returns (some (.int64 i), none)
    | result => .panics (assertInt64Panic result)

/-! ## The backend and the call log -/

abbrev DriverH := Nat
abbrev SessionH := Nat
abbrev TxH := Nat

/-- The driver boundary: every operation the client calls on a driver, a session
or a transaction, as a transition of the backend state returning the reply. -/
structure Backend (σ : Type) where
  newDriver : String → σ → (DriverH × Option GoError) × σ
  verifyConnectivity : DriverH → σ → Option GoError × σ
  newSession : DriverH → σ → SessionH × σ
  driverClose : DriverH → σ → Option GoError × σ
  sessionRun : SessionH → String → Parameters → σ → (ResultWithContext × Option GoError) × σ
  sessionBeginTransaction : SessionH → σ → (TxH × Option GoError) × σ
  sessionClose : SessionH → σ → Option GoError × σ
  txRun : TxH → String → Parameters → σ → (ResultWithContext × Option GoError) × σ
  txCommit : TxH → σ → Option GoError × σ
  txRollback : TxH → σ → Option GoError × σ
  txClose : TxH → σ → Option GoError × σ

/-- A call made by the client, with the reply it got. -/
inductive Event where
  | newDriver (uri : String) (err : Option GoError)
  | verifyConnectivity (d : DriverH) (err : Option GoError)
  | newSession (d : DriverH) (s : SessionH)
  | driverClose (d : DriverH) (err : Option GoError)
  | sessionRun (s : SessionH) (query : String) (parameters : Parameters) (err : Option GoError)
  | sessionBeginTransaction (s : SessionH) (err : Option GoError)
  | sessionClose (s : SessionH) (err : Option GoError)
  | txRun (t : TxH) (query : String) (parameters : Parameters) (err : Option GoError)
  | txCommit (t : TxH) (err : Option GoError)
  | txRollback (t : TxH) (err : Option GoError)
  | txClose (t : TxH) (err : Option GoError)
  | mapper (value : GoAny) (err : Option GoError)
  deriving DecidableEq, Repr

/-- Backend state together with the log of the calls made so far. -/
structure World (σ : Type) where
  st : σ
  log : List Event

/-- Perform one backend operation and log it with its reply. -/
def World.call {σ α : Type} (w : World σ) (op : σ → α × σ) (ev : α → Event) : α × World σ :=
  ((op w.st).1, ⟨(op w.st).2, w.log ++ [ev (op w.st).1]⟩)

/-! ## `pkg/client/client.go` -/

structure Neo4jClientConfiguration where
  deriving DecidableEq, Repr

structure CypherQuery where
  Query : String
  Parameters : Parameters

structure CypherStatement where
  Query : String
  Parameters : Parameters
  Autocommit : Bool

/-- A caller-supplied mapper: it may act on the backend (it consumes the stream). -/
abbrev ResultMapper (σ : Type) := ResultWithContext → σ → (GoAny × Option GoError) × σ

structure neo4jTransaction where
  transaction : TxH
  deriving DecidableEq, Repr

structure neo4jClient where
  driver : DriverH
  session : SessionH
  deriving DecidableEq, Repr

variable {σ : Type}

/-- `Wrap`: verify connectivity, then build the client on a new session. -/
def Wrap (env : Backend σ) (driver : DriverH) (_config : Neo4jClientConfiguration)
    (w : World σ) : (Option neo4jClient × Option GoError) × World σ :=
  let v := w.call (env.verifyConnectivity driver) (Event.verifyConnectivity driver)
  match v.1 with
  | some err => ((none, some err), v.2)
  | none =>
    let s := v.2.call (env.newSession driver) (Event.newSession driver)
    ((some { driver := driver, session := s.1 }, none), s.2)

/-- `Connect`: create the driver, then `Wrap` it. -/
def Connect (env : Backend σ) (uri : String) (config : Neo4jClientConfiguration)
    (w : World σ) : (Option neo4jClient × Option GoError) × World σ :=
  let d := w.call (env.newDriver uri) (fun r => Event.newDriver uri r.2)
  match d.1.2 with
  | some err => ((none, some err), d.2)
  | none => Wrap env d.1.1 config d.2

/-- `neo4jTransaction.Run`. -/
def neo4jTransaction.Run (env : Backend σ) (n : neo4jTransaction) (query : CypherQuery)
    (w : World σ) : (ResultWithContext × Option GoError) × World σ :=
  w.call (env.txRun n.transaction query.Query query.Parameters)
    (fun r => Event.txRun n.transaction query.Query query.Parameters r.2)

/-- `neo4jTransaction.Commit`. -/
def neo4jTransaction.Commit (env : Backend σ) (n : neo4jTransaction)
    (w : World σ) : Option GoError × World σ :=
  w.call (env.txCommit n.transaction) (Event.txCommit n.transaction)

/-- `neo4jTransaction.Rollback`. -/
def neo4jTransaction.Rollback (env : Backend σ) (n : neo4jTransaction)
    (w : World σ) : Option GoError × World σ :=
  w.call (env.txRollback n.transaction) (Event.txRollback n.transaction)

/-- The body of `neo4jClient.Run` after the `defer` statement (lines 109-117):
the values it leaves in the two results before the deferred function runs. -/
def neo4jClient.runInTransaction (env : Backend σ) (transaction : TxH)
    (statement : CypherStatement) (mapper : ResultMapper σ)
    (w : World σ) : (GoAny × Option GoError) × World σ :=
  let r := w.call (env.txRun transaction statement.Query statement.Parameters)
    (fun r => Event.txRun transaction statement.Query statement.Parameters r.2)
  match r.1.2 with
  | some err => ((none, some err), r.2)
  | none =>
    let m := r.2.call (mapper r.1.1) (fun x => Event.mapper x.1 x.2)
    match m.1.2 with
    | some err => ((none, some err), m.2)
    | none =>
      let c := m.2.call (env.txCommit transaction) (Event.txCommit transaction)
      ((m.1.1, c.1), c.2)

/-- The value the deferred function of `neo4jClient.Run` assigns to the named
result `err` (lines 103-107), from the close error `txErr` and the current `err`:
`txErr` when `err` is nil, else the `fmt.Errorf` value built from both. -/
def neo4jClient.deferredErr (txErr : Option GoError) : Option GoError → Option GoError
  | none => txErr
  | some err =>
    some (Errorf "tx could not close: " ", but error occurred first: " txErr err)

/-- The deferred function of `neo4jClient.Run` (lines 101-108): close the
transaction, then set the named result `err`. -/
def neo4jClient.runDeferred (env : Backend σ) (transaction : TxH) (err : Option GoError)
    (w : World σ) : Option GoError × World σ :=
  let c := w.call (env.txClose transaction) (Event.txClose transaction)
  (neo4jClient.deferredErr c.1 err, c.2)

/-- `neo4jClient.Run`. -/
def neo4jClient.Run (env : Backend σ) (client : neo4jClient) (statement : CypherStatement)
    (mapper : ResultMapper σ) (w : World σ) : (GoAny × Option GoError) × World σ :=
  if statement.Autocommit then
    let r := w.call (env.sessionRun client.session statement.Query statement.Parameters)
      (fun r => Event.sessionRun client.session statement.Query statement.Parameters r.2)
    match r.1.2 with
    | some err => ((none, some err), r.2)
    | none =>
      let m := r.2.call (mapper r.1.1) (fun x => Event.mapper x.1 x.2)
      match m.1.2 with
      | some err => ((none, some err), m.2)
      | none => ((m.1.1, none), m.2)
  else
    let t := w.call (env.sessionBeginTransaction client.session)
      (fun r => Event.sessionBeginTransaction client.session r.2)
    match t.1.2 with
    | some err => ((none, some err), t.2)
    | none =>
      let body := neo4jClient.runInTransaction env t.1.1 statement mapper t.2
      let d := neo4jClient.runDeferred env t.1.1 body.1.2 body.2
      ((body.1.1, d.1), d.2)

/-- `neo4jClient.BeginTransaction`. -/
def neo4jClient.BeginTransaction (env : Backend σ) (client : neo4jClient)
    (w : World σ) : (Option neo4jTransaction × Option GoError) × World σ :=
  let t := w.call (env.sessionBeginTransaction client.session)
    (fun r => Event.sessionBeginTransaction client.session r.2)
  match t.1.2 with
  | some err => ((none, some err), t.2)
  | none => ((some { transaction := t.1.1 }, none), t.2)

/-- `neo4jClient.Close`. -/
def neo4jClient.Close (env : Backend σ) (client : neo4jClient)
    (w : World σ) : Option GoError × World σ :=
  let s := w.call (env.sessionClose client.session) (Event.sessionClose client.session)
  let d := s.2.call (env.driverClose client.driver) (Event.driverClose client.driver)
  match s.1, d.1 with
  | some sessionErr, some driverErr =>
    (some (Errorf "session closure error: " " and driver closure error: "
      (some sessionErr) driverErr), d.2)
  | some sessionErr, none => (some sessionErr, d.2)
  | none, some driverErr => (some driverErr, d.2)
  | none, none => (none, d.2)

/-! ## Reading the call log -/

/-- The calls logged between the world `w` and the later world `out`. -/
def callsSince (w out : World σ) : List Event :=
  out.log.drop w.log.length

/-- The error a logged call replied with (`none` for nil). -/
def Event.err : Event → Option GoError
  | .newDriver _ e => e
  | .verifyConnectivity _ e => e
  | .newSession _ _ => none
  | .driverClose _ e => e
  | .sessionRun _ _ _ e => e
  | .sessionBeginTransaction _ e => e
  | .sessionClose _ e => e
  | .txRun _ _ _ e => e
  | .txCommit _ e => e
  | .txRollback _ e => e
  | .txClose _ e => e
  | .mapper _ e => e

def Event.isSessionRun : Event → Bool
  | .sessionRun _ _ _ _ => true
  | _ => false

def Event.isTxRun : Event → Bool
  | .txRun _ _ _ _ => true
  | _ => false

def Event.isMapper : Event → Bool
  | .mapper _ _ => true
  | _ => false

def Event.isTxCommit : Event → Bool
  | .txCommit _ _ => true
  | _ => false

def Event.isTxClose : Event → Bool
  | .txClose _ _ => true
  | _ => false

def Event.isSessionClose : Event → Bool
  | .sessionClose _ _ => true
  | _ => false

def Event.isDriverClose : Event → Bool
  | .driverClose _ _ => true
  | _ => false

/-- The calls that open, finish or release a transaction. -/
def Event.isTransactional : Event → Bool
  | .sessionBeginTransaction _ _ => true
  | .txCommit _ _ => true
  | .txRollback _ _ => true
  | .txClose _ _ => true
  | _ => false

/-- The call succeeded: it replied with a nil error. -/
def Event.ok (e : Event) : Bool :=
  e.err.isNone

/-! ## Order of occurrence inside a message -/

/-- The list `s` begins with `a`. -/
def startsWith : List Char → List Char → Bool
  | [], _ => true
  | _ :: _, [] => false
  | x :: a, y :: s => x == y && startsWith a s

/-- The list `b` occurs somewhere in `s`. -/
def occurs (b : List Char) : List Char → Bool
  | [] => startsWith b []
  | y :: s => startsWith b (y :: s) || occurs b s

/-- Some occurrence of `a` in `s` ends before some occurrence of `b` starts. -/
def occursBefore (a b : List Char) : List Char → Bool
  | [] => startsWith a [] && startsWith b []
  | y :: s =>
    (startsWith a (y :: s) && occurs b ((y :: s).drop a.length)) || occursBefore a b s

/-- The message `s` contains the text `a` and, after it, the text `b`. -/
def OccursBefore (a b s : String) : Prop :=
  ∃ p m t : List Char, s.data = p ++ a.data ++ m ++ b.data ++ t

/-! ## A scripted backend, for concrete runs -/

/-- The replies of a backend that answers every call the same way. -/
structure Script where
  newDriverErr : Option GoError := none
  connectivityErr : Option GoError := none
  driverCloseErr : Option GoError := none
  sessionRunErr : Option GoError := none
  beginErr : Option GoError := none
  sessionCloseErr : Option GoError := none
  txRunErr : Option GoError := none
  commitErr : Option GoError := none
  rollbackErr : Option GoError := none
  txCloseErr : Option GoError := none
  rows : List Record := []

/-- The backend that follows a script; it has no state of its own. -/
def scripted (o : Script) : Backend Unit where
  newDriver _ s := ((1, o.newDriverErr), s)
  verifyConnectivity _ s := (o.connectivityErr, s)
  newSession _ s := (2, s)
  driverClose _ s := (o.driverCloseErr, s)
  sessionRun _ _ _ s := ((⟨o.rows⟩, o.sessionRunErr), s)
  sessionBeginTransaction _ s := ((3, o.beginErr), s)
  sessionClose _ s := (o.sessionCloseErr, s)
  txRun _ _ _ s := ((⟨o.rows⟩, o.txRunErr), s)
  txCommit _ s := (o.commitErr, s)
  txRollback _ s := (o.rollbackErr, s)
  txClose _ s := (o.txCloseErr, s)

/-- A mapper that ignores the stream and returns fixed results. -/
def fixedMapper (value : GoAny) (err : Option GoError) : ResultMapper Unit :=
  fun _ s => ((value, err), s)

/-- The empty world of the scripted backend. -/
def start : World Unit :=
  ⟨(), []⟩

/-- The client used in the concrete runs. -/
def demoClient : neo4jClient :=
  { driver := 1, session := 2 }

/-- The statement of the spec's scenario, run in a managed transaction. -/
def demoStatement : CypherStatement :=
  { Query := "RETURN $v AS v", Parameters := [("v", some (.int64 7))], Autocommit := false }

/-! ## Lemmas on messages -/

theorem startsWith_iff (a s : List Char) : startsWith a s = true ↔ ∃ t, s = a ++ t := by
  induction a generalizing s with
  | nil => simp [startsWith]
  | cons x a ih =>
    cases s with
    | nil => simp [startsWith]
    | cons y s =>
      simp only [startsWith, Bool.and_eq_true, beq_iff_eq, ih, List.cons_append, List.cons.injEq]
      constructor
      · rintro ⟨rfl, t, rfl⟩; exact ⟨t, rfl, rfl⟩
      · rintro ⟨t, rfl, rfl⟩; exact ⟨rfl, t, rfl⟩

theorem occurs_iff (b s : List Char) : occurs b s = true ↔ ∃ p t, s = p ++ b ++ t := by
  induction s with
  | nil =>
    simp only [occurs, startsWith_iff]
    constructor
    · rintro ⟨t, h⟩; exact ⟨[], t, by simpa using h⟩
    · rintro ⟨p, t, h⟩
      have h1 : p = [] ∧ b = [] ∧ t = [] := by simpa [eq_comm, and_assoc] using h
      exact ⟨[], by simp [h1.2.1]⟩
  | cons y s ih =>
    simp only [occurs, Bool.or_eq_true, startsWith_iff, ih]
    constructor
    · rintro (⟨t, h⟩ | ⟨p, t, h⟩)
      · exact ⟨[], t, by simpa using h⟩
      · exact ⟨y :: p, t, by simp [h]⟩
    · rintro ⟨p, t, h⟩
      cases p with
      | nil => exact Or.inl ⟨t, by simpa using h⟩
      | cons z p =>
        simp only [List.cons_append, List.cons.injEq] at h
        exact Or.inr ⟨p, t, h.2⟩

theorem occursBefore_iff (a b s : List Char) :
    occursBefore a b s = true ↔ ∃ p m t, s = p ++ a ++ m ++ b ++ t := by
  induction s with
  | nil =>
    simp only [occursBefore, Bool.and_eq_true, startsWith_iff]
    constructor
    · rintro ⟨⟨t, h⟩, ⟨u, h2⟩⟩
      have ha : a = [] := (by simpa [eq_comm] using h : a = [] ∧ t = []).1
      have hb : b = [] := (by simpa [eq_comm] using h2 : b = [] ∧ u = []).1
      exact ⟨[], [], [], by simp [ha, hb]⟩
    · rintro ⟨p, m, t, h⟩
      have h1 : p = [] ∧ a = [] ∧ m = [] ∧ b = [] ∧ t = [] := by
        simpa [eq_comm, and_assoc] using h
      exact ⟨⟨[], by simp [h1.2.1]⟩, ⟨[], by simp [h1.2.2.2.1]⟩⟩
  | cons y s ih =>
    simp only [occursBefore, Bool.or_eq_true, Bool.and_eq_true, startsWith_iff, occurs_iff, ih]
    constructor
    · rintro (⟨⟨u, h⟩, ⟨m, t, h2⟩⟩ | ⟨p, m, t, h⟩)
      · rw [h, List.drop_left] at h2
        exact ⟨[], m, t, by rw [h, h2]; simp⟩
      · exact ⟨y :: p, m, t, by simp [h]⟩
    · rintro ⟨p, m, t, h⟩
      cases p with
      | nil =>
        left
        refine ⟨⟨m ++ b ++ t, by simpa using h⟩, m, t, ?_⟩
        rw [h]; simp
      | cons z p =>
        simp only [List.cons_append, List.cons.injEq] at h
        exact Or.inr ⟨p, m, t, h.2⟩

/-- The executable check decides the order of occurrence in a message. -/
theorem OccursBefore_iff (a b s : String) :
    OccursBefore a b s ↔ occursBefore a.data b.data s.data = true :=
  (occursBefore_iff a.data b.data s.data).symm

/-- A message assembled from four pieces shows the second before the fourth. -/
theorem OccursBefore_format (pre mid a b : String) :
    OccursBefore a b (pre ++ a ++ mid ++ b) :=
  ⟨pre.data, mid.data, [], by simp [String.data_append]⟩

/-! ## Lemmas on the log -/

/-- All runs of `Run` on a managed transaction: the calls it makes, in order and
with their replies, and what it returns. -/
theorem Run_managed_cases (env : Backend σ) (client : neo4jClient)
    (statement : CypherStatement) (mapper : ResultMapper σ) (w : World σ)
    (hauto : statement.Autocommit = false) :
    (∃ e, (env.sessionBeginTransaction client.session w.st).1.2 = some e ∧
      callsSince w (neo4jClient.Run env client statement mapper w).2 =
        [Event.sessionBeginTransaction client.session (some e)] ∧
      (neo4jClient.Run env client statement mapper w).1 = (none, some e)) ∨
    (∃ tx e c, (env.sessionBeginTransaction client.session w.st).1 = (tx, none) ∧
      callsSince w (neo4jClient.Run env client statement mapper w).2 =
        [Event.sessionBeginTransaction client.session none,
         Event.txRun tx statement.Query statement.Parameters (some e),
         Event.txClose tx c] ∧
      (neo4jClient.Run env client statement mapper w).1 = (none, neo4jClient.deferredErr c (some e))) ∨
    (∃ tx v e c, (env.sessionBeginTransaction client.session w.st).1 = (tx, none) ∧
      callsSince w (neo4jClient.Run env client statement mapper w).2 =
        [Event.sessionBeginTransaction client.session none,
         Event.txRun tx statement.Query statement.Parameters none,
         Event.mapper v (some e),
         Event.txClose tx c] ∧
      (neo4jClient.Run env client statement mapper w).1 = (none, neo4jClient.deferredErr c (some e))) ∨
    (∃ tx v k c, (env.sessionBeginTransaction client.session w.st).1 = (tx, none) ∧
      callsSince w (neo4jClient.Run env client statement mapper w).2 =
        [Event.sessionBeginTransaction client.session none,
         Event.txRun tx statement.Query statement.Parameters none,
         Event.mapper v none,
         Event.txCommit tx k,
         Event.txClose tx c] ∧
      (neo4jClient.Run env client statement mapper w).1 = (v, neo4jClient.deferredErr c k)) := by
  rcases hb : env.sessionBeginTransaction client.session w.st with ⟨⟨tx, _ | e⟩, s1⟩
  · right
    rcases hr : env.txRun tx statement.Query statement.Parameters s1 with ⟨⟨res, _ | e⟩, s2⟩
    · right
      rcases hm : mapper res s2 with ⟨⟨v, _ | e⟩, s3⟩
      · right
        rcases hk : env.txCommit tx s3 with ⟨k, s4⟩
        rcases hc : env.txClose tx s4 with ⟨c, s5⟩
        refine ⟨tx, v, k, c, rfl, ?_, ?_⟩
        · simp [neo4jClient.Run, neo4jClient.runInTransaction, neo4jClient.runDeferred,
            World.call, callsSince, hauto, hb, hr, hm, hk, hc]
        · simp [neo4jClient.Run, neo4jClient.runInTransaction,
            neo4jClient.runDeferred, World.call, hauto, hb, hr, hm, hk, hc]
      · left
        rcases hc : env.txClose tx s3 with ⟨c, s5⟩
        refine ⟨tx, v, e, c, rfl, ?_, ?_⟩
        · simp [neo4jClient.Run, neo4jClient.runInTransaction, neo4jClient.runDeferred,
            World.call, callsSince, hauto, hb, hr, hm, hc]
        · simp [neo4jClient.Run, neo4jClient.runInTransaction,
            neo4jClient.runDeferred, World.call, hauto, hb, hr, hm, hc]
    · left
      rcases hc : env.txClose tx s2 with ⟨c, s5⟩
      refine ⟨tx, e, c, rfl, ?_, ?_⟩
      · simp [neo4jClient.Run, neo4jClient.runInTransaction, neo4jClient.runDeferred,
          World.call, callsSince, hauto, hb, hr, hc]
      · simp [neo4jClient.Run, neo4jClient.runInTransaction,
          neo4jClient.runDeferred, World.call, hauto, hb, hr, hc]
  · left
    refine ⟨e, rfl, ?_, ?_⟩
    · simp [neo4jClient.Run, World.call, callsSince, hauto, hb]
    · simp [neo4jClient.Run, World.call, hauto, hb]

/-! ## The claims -/

/-- C1: for a statement with `Autocommit = false` on which `BeginTransaction`
succeeds, the calls made by `Run` are the `BeginTransaction`, then the steps (none
of them a transaction `Close`), then one `Close` on the opened transaction as the
very last call; `Close` is counted exactly once among the calls. -/
theorem Run_closes_transaction_exactly_once (env : Backend σ) (client : neo4jClient)
    (statement : CypherStatement) (mapper : ResultMapper σ) (w : World σ)
    (hauto : statement.Autocommit = false)
    (hbegin : (env.sessionBeginTransaction client.session w.st).1.2 = none) :
    ∃ (steps : List Event) (txErr : Option GoError),
      callsSince w (neo4jClient.Run env client statement mapper w).2 =
        Event.sessionBeginTransaction client.session none :: steps ++
          [Event.txClose (env.sessionBeginTransaction client.session w.st).1.1 txErr] ∧
      (∀ e ∈ steps, e.isTxClose = false) ∧
      (callsSince w (neo4jClient.Run env client statement mapper w).2).countP
        Event.isTxClose = 1 := by
  rcases Run_managed_cases env client statement mapper w hauto with
    ⟨e, hb, -, -⟩ | ⟨tx, e, c, hb, hl, -⟩ | ⟨tx, v, e, c, hb, hl, -⟩ | ⟨tx, v, k, c, hb, hl, -⟩
  · rw [hbegin] at hb; cases hb
  · rw [hl, hb]
    exact ⟨[_], c, rfl, by simp [Event.isTxClose], by simp [List.countP_cons, Event.isTxClose]⟩
  · rw [hl, hb]
    exact ⟨[_, _], c, rfl, by simp [Event.isTxClose],
      by simp [List.countP_cons, Event.isTxClose]⟩
  · rw [hl, hb]
    exact ⟨[_, _, _], c, rfl, by simp [Event.isTxClose],
      by simp [List.countP_cons, Event.isTxClose]⟩

theorem Run_closes_transaction_exactly_once_witness :
    demoStatement.Autocommit = false ∧
    ((scripted {}).sessionBeginTransaction demoClient.session start.st).1.2 = none ∧
    ∃ (steps : List Event) (txErr : Option GoError),
      callsSince start (neo4jClient.Run (scripted {}) demoClient demoStatement
          (fixedMapper (some (.int64 7)) none) start).2 =
        Event.sessionBeginTransaction demoClient.session none :: steps ++
          [Event.txClose ((scripted {}).sessionBeginTransaction
            demoClient.session start.st).1.1 txErr] ∧
      (∀ e ∈ steps, e.isTxClose = false) ∧
      (callsSince start (neo4jClient.Run (scripted {}) demoClient demoStatement
          (fixedMapper (some (.int64 7)) none) start).2).countP Event.isTxClose = 1 :=
  ⟨rfl, rfl, Run_closes_transaction_exactly_once (scripted {}) demoClient demoStatement
    (fixedMapper (some (.int64 7)) none) start rfl rfl⟩

/-- C2: for a statement with `Autocommit = false`, `Run` opens the transaction on
the client's session; every `Run` call it makes on a transaction is on the opened
transaction and carries the statement's query and parameters, and there is at most
one; every `Commit` is on the opened transaction, and there is at most one.  It
calls `Commit` exactly once iff the statement execution and the mapper both
succeeded, never when either of them failed, and when every call succeeded it
returns the mapper's value with a nil error. -/
theorem Run_commits_iff_execution_and_mapper_succeed (env : Backend σ)
    (client : neo4jClient) (statement : CypherStatement) (mapper : ResultMapper σ)
    (w : World σ) (hauto : statement.Autocommit = false) :
    (callsSince w (neo4jClient.Run env client statement mapper w).2).head? =
      some (Event.sessionBeginTransaction client.session
        (env.sessionBeginTransaction client.session w.st).1.2) ∧
    (∀ e ∈ callsSince w (neo4jClient.Run env client statement mapper w).2,
      e.isTxRun = true →
      ∃ err, e = Event.txRun (env.sessionBeginTransaction client.session w.st).1.1
        statement.Query statement.Parameters err) ∧
    (∀ e ∈ callsSince w (neo4jClient.Run env client statement mapper w).2,
      e.isTxCommit = true →
      ∃ err, e = Event.txCommit (env.sessionBeginTransaction client.session w.st).1.1 err) ∧
    (callsSince w (neo4jClient.Run env client statement mapper w).2).countP
        Event.isTxRun ≤ 1 ∧
    (callsSince w (neo4jClient.Run env client statement mapper w).2).countP
        Event.isTxCommit ≤ 1 ∧
    ((callsSince w (neo4jClient.Run env client statement mapper w).2).countP
        Event.isTxCommit = 1 ↔
      (∃ e ∈ callsSince w (neo4jClient.Run env client statement mapper w).2,
        e.isTxRun = true ∧ e.ok = true) ∧
      (∃ e ∈ callsSince w (neo4jClient.Run env client statement mapper w).2,
        e.isMapper = true ∧ e.ok = true)) ∧
    ((∃ e ∈ callsSince w (neo4jClient.Run env client statement mapper w).2,
        (e.isTxRun || e.isMapper) = true ∧ e.ok = false) →
      (callsSince w (neo4jClient.Run env client statement mapper w).2).countP
        Event.isTxCommit = 0) ∧
    ((∀ e ∈ callsSince w (neo4jClient.Run env client statement mapper w).2, e.ok = true) →
      ∃ v, Event.mapper v none ∈
          callsSince w (neo4jClient.Run env client statement mapper w).2 ∧
        (neo4jClient.Run env client statement mapper w).1 = (v, none)) := by
  rcases Run_managed_cases env client statement mapper w hauto with
    ⟨e, hb, hl, hr⟩ | ⟨tx, e, c, hb, hl, hr⟩ | ⟨tx, v, e, c, hb, hl, hr⟩ |
    ⟨tx, v, k, c, hb, hl, hr⟩
  · rw [hl, hr, hb]
    simp [List.countP_cons, Event.isTxRun, Event.isTxCommit, Event.isMapper, Event.ok,
      Event.err]
  · rw [hl, hr, hb]
    simp [List.countP_cons, Event.isTxRun, Event.isTxCommit, Event.isMapper, Event.ok,
      Event.err]
  · rw [hl, hr, hb]
    simp [List.countP_cons, Event.isTxRun, Event.isTxCommit, Event.isMapper, Event.ok,
      Event.err]
  · rw [hl, hr, hb]
    simp [List.countP_cons, Event.isTxRun, Event.isTxCommit, Event.isMapper, Event.ok,
      Event.err]
    rintro rfl rfl
    rfl

/-- C3 (evaluation at the failing inputs): when only the statement execution
fails, or only the mapper fails, and the transaction close succeeds, `Run` does
not return the step's error itself but a new error whose message starts with
`tx could not close: <nil>` and which wraps the step's error. -/
theorem Run_single_failure_is_rewrapped :
    neo4jClient.Run (scripted { txRunErr := some (.leaf "syntax error") }) demoClient
        demoStatement (fixedMapper (some (.int64 7)) none) start =
      ((none, some (.wrap "tx could not close: <nil>, but error occurred first: syntax error"
          (.leaf "syntax error"))),
       ⟨(), [Event.sessionBeginTransaction 2 none,
             Event.txRun 3 "RETURN $v AS v" [("v", some (.int64 7))]
               (some (.leaf "syntax error")),
             Event.txClose 3 none]⟩) ∧
    neo4jClient.Run (scripted {}) demoClient demoStatement
        (fixedMapper none (some (.leaf "not an integer"))) start =
      ((none, some (.wrap "tx could not close: <nil>, but error occurred first: not an integer"
          (.leaf "not an integer"))),
       ⟨(), [Event.sessionBeginTransaction 2 none,
             Event.txRun 3 "RETURN $v AS v" [("v", some (.int64 7))] none,
             Event.mapper none (some (.leaf "not an integer")),
             Event.txClose 3 none]⟩) := by
  constructor <;> rfl

theorem Run_commits_iff_execution_and_mapper_succeed_witness :
    demoStatement.Autocommit = false ∧
    callsSince start (neo4jClient.Run (scripted {}) demoClient demoStatement
        (fixedMapper (some (.int64 7)) none) start).2 =
      [Event.sessionBeginTransaction 2 none,
       Event.txRun 3 "RETURN $v AS v" [("v", some (.int64 7))] none,
       Event.mapper (some (.int64 7)) none,
       Event.txCommit 3 none,
       Event.txClose 3 none] ∧
    (neo4jClient.Run (scripted {}) demoClient demoStatement
        (fixedMapper (some (.int64 7)) none) start).1 = (some (.int64 7), none) ∧
    (∀ e ∈ callsSince start (neo4jClient.Run (scripted {}) demoClient demoStatement
        (fixedMapper (some (.int64 7)) none) start).2,
      e.isTxRun = true →
      ∃ err, e = Event.txRun ((scripted {}).sessionBeginTransaction
          demoClient.session start.st).1.1
        demoStatement.Query demoStatement.Parameters err) ∧
    (∀ e ∈ callsSince start (neo4jClient.Run (scripted {}) demoClient demoStatement
        (fixedMapper (some (.int64 7)) none) start).2,
      e.isTxCommit = true →
      ∃ err, e = Event.txCommit ((scripted {}).sessionBeginTransaction
          demoClient.session start.st).1.1 err) ∧
    ((callsSince start (neo4jClient.Run (scripted {}) demoClient demoStatement
        (fixedMapper (some (.int64 7)) none) start).2).countP Event.isTxCommit = 1 ↔
      (∃ e ∈ callsSince start (neo4jClient.Run (scripted {}) demoClient demoStatement
          (fixedMapper (some (.int64 7)) none) start).2,
        e.isTxRun = true ∧ e.ok = true) ∧
      (∃ e ∈ callsSince start (neo4jClient.Run (scripted {}) demoClient demoStatement
          (fixedMapper (some (.int64 7)) none) start).2,
        e.isMapper = true ∧ e.ok = true)) :=
  ⟨rfl, rfl, rfl,
    (Run_commits_iff_execution_and_mapper_succeed (scripted {}) demoClient demoStatement
      (fixedMapper (some (.int64 7)) none) start rfl).2.1,
    (Run_commits_iff_execution_and_mapper_succeed (scripted {}) demoClient demoStatement
      (fixedMapper (some (.int64 7)) none) start rfl).2.2.1,
    (Run_commits_iff_execution_and_mapper_succeed (scripted {}) demoClient demoStatement
      (fixedMapper (some (.int64 7)) none) start rfl).2.2.2.2.2.1⟩

/-- C4 as stated fails: with the mapper failing with `mapper failed` and the close
failing with `close failed`, the message of the returned error names the close
failure first and the mapper failure after it, and the error unwraps to the mapper
failure, not to the close failure. -/
theorem Run_double_failure_names_close_failure_first :
    ∃ r, (neo4jClient.Run (scripted { txCloseErr := some (.leaf "close failed") }) demoClient
        demoStatement (fixedMapper none (some (.leaf "mapper failed"))) start).1.2 = some r ∧
      r.Error = "tx could not close: close failed, but error occurred first: mapper failed" ∧
      ¬ OccursBefore "mapper failed" "close failed" r.Error ∧
      r.Unwrap ≠ some (.leaf "close failed") :=
  ⟨_, rfl, rfl, fun h => absurd ((OccursBefore_iff _ _ _).mp h) (by decide), by decide⟩

/-- C4, amended: for a statement with `Autocommit = false`, if a prior operation
(execute, mapper or commit) fails with `e1` and the transaction close then fails
with `e2`, `Run` returns an error whose message is
`tx could not close: <e2>, but error occurred first: <e1>`: it contains both
descriptions, the close failure's first and the original failure's after it, and
the error wraps (unwraps to) the original failure `e1`. -/
theorem Run_double_failure_message (env : Backend σ) (client : neo4jClient)
    (statement : CypherStatement) (mapper : ResultMapper σ) (w : World σ)
    (e1 e2 : GoError) (tx : TxH)
    (hauto : statement.Autocommit = false)
    (hprior : ∃ ev ∈ callsSince w (neo4jClient.Run env client statement mapper w).2,
      (ev.isTxRun || ev.isMapper || ev.isTxCommit) = true ∧ ev.err = some e1)
    (hclose : Event.txClose tx (some e2) ∈
      callsSince w (neo4jClient.Run env client statement mapper w).2) :
    ∃ r, (neo4jClient.Run env client statement mapper w).1.2 = some r ∧
      r.Error = "tx could not close: " ++ e2.Error ++ ", but error occurred first: " ++
        e1.Error ∧
      OccursBefore e2.Error e1.Error r.Error ∧
      r.Unwrap = some e1 := by
  have key : (neo4jClient.Run env client statement mapper w).1.2 =
      some (Errorf "tx could not close: " ", but error occurred first: " (some e2) e1) := by
    rcases Run_managed_cases env client statement mapper w hauto with
      ⟨e, -, hl, hr⟩ | ⟨tx', e, c, -, hl, hr⟩ | ⟨tx', v, e, c, -, hl, hr⟩ |
      ⟨tx', v, k, c, -, hl, hr⟩
    · rw [hl] at hclose
      simp at hclose
    · rw [hl] at hclose hprior
      rw [hr]
      simp [Event.isTxRun, Event.isMapper, Event.isTxCommit, Event.err] at hclose hprior
      simp [neo4jClient.deferredErr, hclose.2, hprior]
    · rw [hl] at hclose hprior
      rw [hr]
      simp [Event.isTxRun, Event.isMapper, Event.isTxCommit, Event.err] at hclose hprior
      simp [neo4jClient.deferredErr, hclose.2, hprior]
    · rw [hl] at hclose hprior
      rw [hr]
      simp [Event.isTxRun, Event.isMapper, Event.isTxCommit, Event.err] at hclose hprior
      simp [neo4jClient.deferredErr, hclose.2, hprior]
  refine ⟨_, key, rfl, ?_, rfl⟩
  exact OccursBefore_format "tx could not close: " ", but error occurred first: " _ _

theorem Run_double_failure_message_witness :
    demoStatement.Autocommit = false ∧
    (∃ ev ∈ callsSince start (neo4jClient.Run
        (scripted { txCloseErr := some (.leaf "close failed") }) demoClient demoStatement
        (fixedMapper none (some (.leaf "mapper failed"))) start).2,
      (ev.isTxRun || ev.isMapper || ev.isTxCommit) = true ∧
        ev.err = some (.leaf "mapper failed")) ∧
    Event.txClose 3 (some (.leaf "close failed")) ∈ callsSince start (neo4jClient.Run
        (scripted { txCloseErr := some (.leaf "close failed") }) demoClient demoStatement
        (fixedMapper none (some (.leaf "mapper failed"))) start).2 ∧
    ∃ r, (neo4jClient.Run (scripted { txCloseErr := some (.leaf "close failed") }) demoClient
        demoStatement (fixedMapper none (some (.leaf "mapper failed"))) start).1.2 = some r ∧
      r.Error = "tx could not close: " ++ "close failed" ++
        ", but error occurred first: " ++ "mapper failed" ∧
      OccursBefore "close failed" "mapper failed" r.Error ∧
      r.Unwrap = some (.leaf "mapper failed") :=
  ⟨rfl, ⟨Event.mapper none (some (.leaf "mapper failed")), by decide, rfl, rfl⟩, by decide,
    Run_double_failure_message (scripted { txCloseErr := some (.leaf "close failed") })
    demoClient demoStatement (fixedMapper none (some (.leaf "mapper failed"))) start
    (.leaf "mapper failed") (.leaf "close failed") 3 rfl
    ⟨Event.mapper none (some (.leaf "mapper failed")), by decide, rfl, rfl⟩ (by decide)⟩

/-- C5: `neo4jClient.Close` calls `session.Close` and then `driver.Close`, each
exactly once, whatever the first returns.  It returns nil iff both succeed, the
failing call's own error when exactly one fails, and when both fail an error whose
message is `session closure error: <s> and driver closure error: <d>` (both causes,
the session cause first) and which unwraps to the driver cause. -/
theorem Close_closes_both_and_aggregates (env : Backend σ) (client : neo4jClient)
    (w : World σ) :
    ∃ sessionErr driverErr : Option GoError,
      callsSince w (neo4jClient.Close env client w).2 =
        [Event.sessionClose client.session sessionErr,
         Event.driverClose client.driver driverErr] ∧
      sessionErr = (env.sessionClose client.session w.st).1 ∧
      driverErr = (env.driverClose client.driver (env.sessionClose client.session w.st).2).1 ∧
      ((neo4jClient.Close env client w).1 = none ↔ sessionErr = none ∧ driverErr = none) ∧
      (∀ e, sessionErr = some e → driverErr = none →
        (neo4jClient.Close env client w).1 = some e) ∧
      (∀ e, sessionErr = none → driverErr = some e →
        (neo4jClient.Close env client w).1 = some e) ∧
      (∀ s d, sessionErr = some s → driverErr = some d →
        ∃ r, (neo4jClient.Close env client w).1 = some r ∧
          r.Error = "session closure error: " ++ s.Error ++
            " and driver closure error: " ++ d.Error ∧
          OccursBefore s.Error d.Error r.Error ∧
          r.Unwrap = some d) := by
  rcases hs : env.sessionClose client.session w.st with ⟨se, s1⟩
  rcases hd : env.driverClose client.driver s1 with ⟨de, s2⟩
  refine ⟨se, de, ?_, rfl, rfl, ?_, ?_, ?_, ?_⟩
  · cases se <;> cases de <;> simp [neo4jClient.Close, World.call, callsSince, hs, hd]
  · cases se <;> cases de <;> simp [neo4jClient.Close, World.call, hs, hd]
  · rintro e rfl rfl
    simp [neo4jClient.Close, World.call, hs, hd]
  · rintro e rfl rfl
    simp [neo4jClient.Close, World.call, hs, hd]
  · rintro s d rfl rfl
    refine ⟨Errorf "session closure error: " " and driver closure error: " (some s) d,
      by simp [neo4jClient.Close, World.call, hs, hd], rfl, ?_, rfl⟩
    exact OccursBefore_format "session closure error: " " and driver closure error: " _ _

/-- All runs of `Run` on an autocommit statement: the calls it makes, in order and
with their replies, and what it returns. -/
theorem Run_autocommit_cases (env : Backend σ) (client : neo4jClient)
    (statement : CypherStatement) (mapper : ResultMapper σ) (w : World σ)
    (hauto : statement.Autocommit = true) :
    (∃ e, callsSince w (neo4jClient.Run env client statement mapper w).2 =
        [Event.sessionRun client.session statement.Query statement.Parameters (some e)] ∧
      (neo4jClient.Run env client statement mapper w).1 = (none, some e)) ∨
    (∃ v e, callsSince w (neo4jClient.Run env client statement mapper w).2 =
        [Event.sessionRun client.session statement.Query statement.Parameters none,
         Event.mapper v (some e)] ∧
      (neo4jClient.Run env client statement mapper w).1 = (none, some e)) ∨
    (∃ v, callsSince w (neo4jClient.Run env client statement mapper w).2 =
        [Event.sessionRun client.session statement.Query statement.Parameters none,
         Event.mapper v none] ∧
      (neo4jClient.Run env client statement mapper w).1 = (v, none)) := by
  rcases hr : env.sessionRun client.session statement.Query statement.Parameters w.st with
    ⟨⟨res, _ | e⟩, s1⟩
  · right
    rcases hm : mapper res s1 with ⟨⟨v, _ | e⟩, s2⟩
    · right
      exact ⟨v, by simp [neo4jClient.Run, World.call, callsSince, hauto, hr, hm],
        by simp [neo4jClient.Run, World.call, hauto, hr, hm]⟩
    · left
      exact ⟨v, e, by simp [neo4jClient.Run, World.call, callsSince, hauto, hr, hm],
        by simp [neo4jClient.Run, World.call, hauto, hr, hm]⟩
  · left
    exact ⟨e, by simp [neo4jClient.Run, World.call, callsSince, hauto, hr],
      by simp [neo4jClient.Run, World.call, hauto, hr]⟩

/-- C6: for a statement with `Autocommit = true`, `Run` makes no `BeginTransaction`,
`Commit`, `Rollback` or transaction `Close` call; its first call is `session.Run`
with the statement's query and parameters and it is the only `session.Run`; the
mapper is called at most once, and exactly once iff `session.Run` succeeded; and
`Run` returns either the mapper's value with a nil error, or a nil value with the
very error the failing call (session.Run or the mapper) replied with. -/
theorem Run_autocommit_opens_no_transaction (env : Backend σ) (client : neo4jClient)
    (statement : CypherStatement) (mapper : ResultMapper σ) (w : World σ)
    (hauto : statement.Autocommit = true) :
    (∀ e ∈ callsSince w (neo4jClient.Run env client statement mapper w).2,
      e.isTransactional = false) ∧
    (∃ err, (callsSince w (neo4jClient.Run env client statement mapper w).2).head? =
      some (Event.sessionRun client.session statement.Query statement.Parameters err)) ∧
    (callsSince w (neo4jClient.Run env client statement mapper w).2).countP
      Event.isSessionRun = 1 ∧
    (callsSince w (neo4jClient.Run env client statement mapper w).2).countP
      Event.isMapper ≤ 1 ∧
    ((callsSince w (neo4jClient.Run env client statement mapper w).2).countP
        Event.isMapper = 1 ↔
      ∃ e ∈ callsSince w (neo4jClient.Run env client statement mapper w).2,
        e.isSessionRun = true ∧ e.ok = true) ∧
    ((∃ v, Event.mapper v none ∈
          callsSince w (neo4jClient.Run env client statement mapper w).2 ∧
        (neo4jClient.Run env client statement mapper w).1 = (v, none)) ∨
      (∃ ev ∈ callsSince w (neo4jClient.Run env client statement mapper w).2,
        ∃ e, ev.err = some e ∧
          (neo4jClient.Run env client statement mapper w).1 = (none, some e))) := by
  rcases Run_autocommit_cases env client statement mapper w hauto with
    ⟨e, hl, hr⟩ | ⟨v, e, hl, hr⟩ | ⟨v, hl, hr⟩
  · rw [hl, hr]
    simp [List.countP_cons, Event.isTransactional, Event.isSessionRun, Event.isMapper,
      Event.ok, Event.err]
  · rw [hl, hr]
    simp [List.countP_cons, Event.isTransactional, Event.isSessionRun, Event.isMapper,
      Event.ok, Event.err]
  · rw [hl, hr]
    simp [List.countP_cons, Event.isTransactional, Event.isSessionRun, Event.isMapper,
      Event.ok, Event.err]

theorem Run_autocommit_opens_no_transaction_witness :
    ({ demoStatement with Autocommit := true } : CypherStatement).Autocommit = true ∧
    (∀ e ∈ callsSince start (neo4jClient.Run (scripted {}) demoClient
        { demoStatement with Autocommit := true }
        (fixedMapper (some (.int64 7)) none) start).2, e.isTransactional = false) ∧
    (neo4jClient.Run (scripted {}) demoClient { demoStatement with Autocommit := true }
        (fixedMapper (some (.int64 7)) none) start).1 = (some (.int64 7), none) :=
  ⟨rfl, (Run_autocommit_opens_no_transaction (scripted {}) demoClient
      { demoStatement with Autocommit := true }
      (fixedMapper (some (.int64 7)) none) start rfl).1, rfl⟩

/-- C7 as stated fails: the client that `Wrap` builds on driver handle 1 closes
that driver when it is closed, right after closing its session. -/
theorem Close_after_Wrap_calls_driver_Close :
    (Wrap (scripted {}) 1 {} start).1 = (some demoClient, none) ∧
    callsSince (Wrap (scripted {}) 1 {} start).2
        (neo4jClient.Close (scripted {}) demoClient (Wrap (scripted {}) 1 {} start).2).2 =
      [Event.sessionClose 2 none, Event.driverClose 1 none] ∧
    (callsSince (Wrap (scripted {}) 1 {} start).2
        (neo4jClient.Close (scripted {}) demoClient (Wrap (scripted {}) 1 {} start).2).2).countP
      Event.isDriverClose = 1 := by
  refine ⟨rfl, rfl, ?_⟩
  decide

/-- C7, amended: a client obtained through `Wrap` holds the driver handle it was
given, and `Close` on it, in any later world, closes the session and then calls
`driver.Close` on that handle exactly once, as for a client obtained through
`Connect`; the client keeps no record of who created the driver. -/
theorem Close_closes_driver_of_wrapped_client (env : Backend σ) (driver : DriverH)
    (config : Neo4jClientConfiguration) (w w1 : World σ) (client : neo4jClient)
    (hwrap : (Wrap env driver config w).1.1 = some client) :
    client.driver = driver ∧
    callsSince w1 (neo4jClient.Close env client w1).2 =
      [Event.sessionClose client.session (env.sessionClose client.session w1.st).1,
       Event.driverClose driver
        (env.driverClose driver (env.sessionClose client.session w1.st).2).1] ∧
    (callsSince w1 (neo4jClient.Close env client w1).2).countP Event.isDriverClose = 1 := by
  have hd : client.driver = driver := by
    rcases hv : env.verifyConnectivity driver w.st with ⟨_ | e, s1⟩
    · simp [Wrap, World.call, hv] at hwrap
      rw [← hwrap]
    · simp [Wrap, World.call, hv] at hwrap
  subst hd
  have hl : callsSince w1 (neo4jClient.Close env client w1).2 =
      [Event.sessionClose client.session (env.sessionClose client.session w1.st).1,
       Event.driverClose client.driver
        (env.driverClose client.driver (env.sessionClose client.session w1.st).2).1] := by
    rcases hs : env.sessionClose client.session w1.st with ⟨se, s1⟩
    rcases hd : env.driverClose client.driver s1 with ⟨de, s2⟩
    cases se <;> cases de <;> simp [neo4jClient.Close, World.call, callsSince, hs, hd]
  refine ⟨rfl, hl, ?_⟩
  rw [hl]
  simp [List.countP_cons, Event.isDriverClose]

theorem Close_closes_driver_of_wrapped_client_witness :
    (Wrap (scripted {}) 1 {} start).1.1 = some demoClient ∧
    demoClient.driver = 1 ∧
    (callsSince (Wrap (scripted {}) 1 {} start).2
        (neo4jClient.Close (scripted {}) demoClient (Wrap (scripted {}) 1 {} start).2).2).countP
      Event.isDriverClose = 1 :=
  ⟨rfl, (Close_closes_driver_of_wrapped_client (scripted {}) 1 {} start
      (Wrap (scripted {}) 1 {} start).2 demoClient rfl).1,
    (Close_closes_driver_of_wrapped_client (scripted {}) 1 {} start
      (Wrap (scripted {}) 1 {} start).2 demoClient rfl).2.2⟩

/-- C8 as stated fails: on a driver transaction that answers every call with a nil
error, a second `Commit`, a `Rollback` and a `Run` issued after a first `Commit`
(or after a first `Rollback`) on the same handle all return a nil error. -/
theorem Transaction_calls_after_Commit_can_succeed :
    (neo4jTransaction.Commit (scripted {}) ⟨3⟩ start).1 = none ∧
    (neo4jTransaction.Commit (scripted {}) ⟨3⟩
      (neo4jTransaction.Commit (scripted {}) ⟨3⟩ start).2).1 = none ∧
    (neo4jTransaction.Rollback (scripted {}) ⟨3⟩
      (neo4jTransaction.Commit (scripted {}) ⟨3⟩ start).2).1 = none ∧
    (neo4jTransaction.Run (scripted {}) ⟨3⟩ ⟨"RETURN 1", []⟩
      (neo4jTransaction.Commit (scripted {}) ⟨3⟩ start).2).1.2 = none ∧
    (neo4jTransaction.Run (scripted {}) ⟨3⟩ ⟨"RETURN 1", []⟩
      (neo4jTransaction.Rollback (scripted {}) ⟨3⟩ start).2).1.2 = none :=
  ⟨rfl, rfl, rfl, rfl, rfl⟩

/-- C8, amended: a `neo4jTransaction` handle keeps no record of having been
committed or rolled back; after a `Commit` (`commit = true`) or a `Rollback`
(`commit = false`), each further `Run`, `Commit` or `Rollback` on the handle makes
the same call on the driver transaction and returns that call's reply, so it
returns a non-nil error exactly when the driver transaction does. -/
theorem Transaction_delegates_after_termination (env : Backend σ) (n : neo4jTransaction)
    (query : CypherQuery) (w : World σ) (commit : Bool) :
    let w1 := if commit then (neo4jTransaction.Commit env n w).2
      else (neo4jTransaction.Rollback env n w).2
    w1.st = (if commit then (env.txCommit n.transaction w.st).2
      else (env.txRollback n.transaction w.st).2) ∧
    (neo4jTransaction.Run env n query w1).1 =
      (env.txRun n.transaction query.Query query.Parameters w1.st).1 ∧
    callsSince w1 (neo4jTransaction.Run env n query w1).2 =
      [Event.txRun n.transaction query.Query query.Parameters
        (env.txRun n.transaction query.Query query.Parameters w1.st).1.2] ∧
    (neo4jTransaction.Commit env n w1).1 = (env.txCommit n.transaction w1.st).1 ∧
    callsSince w1 (neo4jTransaction.Commit env n w1).2 =
      [Event.txCommit n.transaction (env.txCommit n.transaction w1.st).1] ∧
    (neo4jTransaction.Rollback env n w1).1 = (env.txRollback n.transaction w1.st).1 ∧
    callsSince w1 (neo4jTransaction.Rollback env n w1).2 =
      [Event.txRollback n.transaction (env.txRollback n.transaction w1.st).1] := by
  intro w1
  refine ⟨?_, ?_⟩
  · cases commit <;> rfl
  · simp [neo4jTransaction.Run, neo4jTransaction.Commit, neo4jTransaction.Rollback,
      World.call, callsSince]

/-- C9 (evaluation at the failing inputs): when the mapper returned the value 7
and then the commit fails, or the commit succeeds and the transaction close fails,
`Run` returns the value 7 together with a non-nil error. -/
theorem Run_returns_value_with_error :
    (neo4jClient.Run (scripted { txCloseErr := some (.leaf "close failed") }) demoClient
        demoStatement (fixedMapper (some (.int64 7)) none) start).1 =
      (some (.int64 7), some (.leaf "close failed")) ∧
    (neo4jClient.Run (scripted { commitErr := some (.leaf "commit failed") }) demoClient
        demoStatement (fixedMapper (some (.int64 7)) none) start).1 =
      (some (.int64 7),
       some (.wrap "tx could not close: <nil>, but error occurred first: commit failed"
        (.leaf "commit failed"))) :=
  ⟨rfl, rfl⟩

/-- C10 as stated fails: on a single row holding a string under the key `fortyTwo`,
and on a single row without that key, `fortyTwo` returns nothing, neither an error
nor a value: the type assertion panics, naming the dynamic type it found. -/
theorem fortyTwo_panics_on_string_or_absent_key :
    fortyTwo ⟨[⟨[("fortyTwo", some (.string "42"))]⟩]⟩ =
      .panics "interface conversion: interface {} is string, not int64" ∧
    fortyTwo ⟨[⟨[("answer", some (.int64 42))]⟩]⟩ =
      .panics "interface conversion: interface {} is nil, not int64" ∧
    (¬ ∃ r, fortyTwo ⟨[⟨[("fortyTwo", some (.string "42"))]⟩]⟩ = .returns r) ∧
    (¬ ∃ r, fortyTwo ⟨[⟨[("answer", some (.int64 42))]⟩]⟩ = .returns r) := by
  refine ⟨by decide, by decide, ?_, ?_⟩
  · rintro ⟨r, h⟩
    have h1 : fortyTwo ⟨[⟨[("fortyTwo", some (.string "42"))]⟩]⟩ =
      .panics "interface conversion: interface {} is string, not int64" := by decide
    rw [h1] at h
    cases h
  · rintro ⟨r, h⟩
    have h1 : fortyTwo ⟨[⟨[("answer", some (.int64 42))]⟩]⟩ =
      .panics "interface conversion: interface {} is nil, not int64" := by decide
    rw [h1] at h
    cases h

/-- C10, amended: `fortyTwo` returns an error (that of `Single`) with a nil value,
without panicking, whenever the stream does not hold exactly one row; it returns a
value with a nil error exactly when the stream holds exactly one row with an
`int64` under the key `fortyTwo`, and the value is that integer; on a single row
where the key is absent or the value under it is nil or not an `int64`, it returns
no error: the unchecked type assertion panics, naming the dynamic type. -/
theorem fortyTwo_behaviour (queryResult : ResultWithContext) :
    (queryResult.records.length ≠ 1 →
      ∃ err, queryResult.Single.2 = some err ∧
        fortyTwo queryResult = .returns (none, some err)) ∧
    (∀ v, fortyTwo queryResult = .returns (v, none) ↔
      ∃ record i, queryResult.records = [record] ∧
        record.fields.lookup "fortyTwo" = some (some (.int64 i)) ∧
        v = some (.int64 i)) ∧
    (∀ record, queryResult.records = [record] →
      (∀ i, record.fields.lookup "fortyTwo" ≠ some (some (.int64 i))) →
      fortyTwo queryResult = .panics ("interface conversion: interface {} is " ++
        goTypeName (record.Get "fortyTwo").1 ++ ", not int64")) := by
  rcases queryResult with ⟨records⟩
  match records with
  | [] =>
    refine ⟨fun _ => ⟨_, rfl, rfl⟩, fun v => ?_, fun record h => ?_⟩
    · simp [fortyTwo, ResultWithContext.Single]
    · simp at h
  | _ :: _ :: _ =>
    refine ⟨fun _ => ⟨_, rfl, rfl⟩, fun v => ?_, fun record h => ?_⟩
    · simp [fortyTwo, ResultWithContext.Single]
    · simp at h
  | [r] =>
    refine ⟨fun h => absurd rfl h, fun v => ?_, fun record h hne => ?_⟩
    · rcases hl : r.fields.lookup "fortyTwo" with _ | _ | x
      · simp [fortyTwo, ResultWithContext.Single, Record.Get, hl]
      · simp [fortyTwo, ResultWithContext.Single, Record.Get, hl]
      · cases x <;>
          simp [fortyTwo, ResultWithContext.Single, Record.Get, hl, eq_comm]
    · simp only [List.cons.injEq, and_true] at h
      subst h
      rcases hl : r.fields.lookup "fortyTwo" with _ | _ | x
      · simp [fortyTwo, ResultWithContext.Single, Record.Get, hl, assertInt64Panic]
      · simp [fortyTwo, ResultWithContext.Single, Record.Get, hl, assertInt64Panic]
      · cases x with
        | int64 i => exact absurd hl (hne i)
        | float64 m e =>
          simp [fortyTwo, ResultWithContext.Single, Record.Get, hl, assertInt64Panic]
        | string t =>
          simp [fortyTwo, ResultWithContext.Single, Record.Get, hl, assertInt64Panic]
        | bool b =>
          simp [fortyTwo, ResultWithContext.Single, Record.Get, hl, assertInt64Panic]

end Neo4jGo
